import Mathlib

/-!
Shallow embedding of the Dikt IBus integration layer
(`src/ibus-sys/wrapper.c` / `wrapper.h`).

The C code is a thin wrapper over the external IBus framework. The framework
calls (`ibus_bus_new`, `ibus_bus_is_connected`, `ibus_bus_get_connection`,
`ibus_factory_new`, `ibus_bus_request_name`, `ibus_bus_set_global_engine`,
`ibus_bus_get_global_engine`, ...) are modelled by a pure oracle
`FrameworkEnv`; pointers are modelled as `Option Nat` (handle identities,
`none` for NULL); the process-wide `static` globals of wrapper.c are an
explicit `WrapperState`; and every externally observable action (object
unrefs, stderr output, bus RPCs, signal subscription) is recorded in an
`Effect` trace, so resource-lifecycle claims become statements about traces.

Machine integers (`guint`, `int`) carry no arithmetic here, so they are
modelled as `Nat`/`Int` directly.
-/

namespace Dikt

/-- Metadata record built by `ibus_engine_desc_new` in wrapper.c; the eight
fields are the eight positional string arguments, in order. -/
structure EngineDesc where
  name : String
  longname : String
  description : String
  language : String
  license : String
  author : String
  icon : String
  layout : String
deriving DecidableEq, Repr

/-- Metadata record built by `ibus_component_new` in wrapper.c: eight
positional string arguments plus the engine descriptors attached by
`ibus_component_add_engine`. -/
structure Component where
  name : String
  description : String
  version : String
  license : String
  author : String
  homepage : String
  exec : String
  textdomain : String
  engines : List EngineDesc
deriving DecidableEq, Repr

/-- Observable actions performed by the wrapper against the framework and
the process environment. Each constructor corresponds to one call site in
wrapper.c. -/
inductive Effect where
  | ibusInit : Effect
  | busNew : Effect
  | isConnected (bus : Nat) : Effect
  | unrefBus (bus : Nat) : Effect
  | unrefFactory (factory : Nat) : Effect
  | unrefComponent : Effect
  | unrefDesc : Effect
  | stderrMsg (msg : String) : Effect
  | signalConnectDisconnected (bus : Nat) : Effect
  | factoryAddEngine (factory : Nat) (engineName : String) : Effect
  | requestName (bus : Nat) (busName : String) (flags : Nat) : Effect
  | registerComponent (bus : Nat) (comp : Component) : Effect
  | setGlobalEngineCall (bus : Nat) (engineName : String) : Effect
  | getGlobalEngineCall (bus : Nat) : Effect
deriving DecidableEq, Repr

/-- Pure oracle for the external IBus framework.

`busNewResult n` is the handle returned by the n-th `ibus_bus_new` call of
the process (`none` = NULL). `busConnected h` is what
`ibus_bus_is_connected` reports for handle `h`; `busGetConnection h` is the
`GDBusConnection` obtained from bus `h`; `factoryNewResult c` the factory
created over connection `c`; `requestNameResult` the `guint` returned by
`ibus_bus_request_name`; `setGlobalEngineResult h name` the gboolean from
`ibus_bus_set_global_engine`; `getGlobalEngineDesc h` is `none` when
`ibus_bus_get_global_engine` returns NULL, and otherwise carries the
(possibly NULL) string reported by `ibus_engine_desc_get_name`. -/
structure FrameworkEnv where
  busNewResult : Nat → Option Nat
  busConnected : Nat → Bool
  busGetConnection : Nat → Option Nat
  factoryNewResult : Nat → Option Nat
  requestNameResult : Nat
  setGlobalEngineResult : Nat → String → Bool
  getGlobalEngineDesc : Nat → Option (Option String)

/-- The process-wide `static` variables of wrapper.c that the bus/factory
lifecycle and the daemon bus cache read and write: `global_bus`,
`global_factory`, `daemon_ibus_initialized` (the one-shot `g_once` latch,
here `daemon_ready`), and `daemon_cached_bus`. `busNewCalls` counts the
`ibus_bus_new` invocations made so far, indexing `FrameworkEnv.busNewResult`. -/
structure WrapperState where
  global_bus : Option Nat
  global_factory : Option Nat
  daemon_ready : Bool
  daemon_cached_bus : Option Nat
  busNewCalls : Nat
deriving DecidableEq, Repr

/-- The all-NULL state the C globals have at process start. -/
def initialState : WrapperState :=
  { global_bus := none
    global_factory := none
    daemon_ready := false
    daemon_cached_bus := none
    busNewCalls := 0 }

/-- The callback table stored by `ibus_dikt_set_callback`: the opaque
`global_context` pointer, the `key_event` function pointer (whose boolean
result matters, so it is kept as a function), and presence flags for the five
void callback slots (a flag is `true` iff the C function pointer is
non-NULL). -/
structure CallbackTable where
  context : Option Nat
  key_event_cb : Option (Nat → Nat → Nat → Nat → Nat → Bool)
  focus_in_cb : Bool
  focus_out_cb : Bool
  reset_cb : Bool
  enable_cb : Bool
  disable_cb : Bool

/-- Host-visible callback invocations performed by the engine dispatch
methods: each records the context handle, the engine instance and the
event-specific arguments passed to the host callback. -/
inductive CbEvent where
  | keyEvent (ctx engine keyval keycode modifiers : Nat)
  | focusIn (ctx engine : Nat)
  | focusOut (ctx engine : Nat)
  | reset (ctx engine : Nat)
  | enable (ctx engine : Nat)
  | disable (ctx engine : Nat)
deriving DecidableEq, Repr

/-- `ibus_dikt_set_callback` (wrapper.c lines 115-129): stores all seven
values into the process-wide table; last write wins. -/
def ibus_dikt_set_callback (ctx : Option Nat)
    (key_event_cb : Option (Nat → Nat → Nat → Nat → Nat → Bool))
    (focus_in_cb focus_out_cb reset_cb enable_cb disable_cb : Bool) :
    CallbackTable :=
  { context := ctx
    key_event_cb := key_event_cb
    focus_in_cb := focus_in_cb
    focus_out_cb := focus_out_cb
    reset_cb := reset_cb
    enable_cb := enable_cb
    disable_cb := disable_cb }

/-- `ibus_dikt_engine_process_key_event` (wrapper.c lines 69-77): if
`global_key_event_cb && global_context`, invoke the callback with
`(ctx, engine, keyval, keycode, modifiers)` and return its gboolean;
otherwise return FALSE. -/
def ibus_dikt_engine_process_key_event (t : CallbackTable)
    (engine keyval keycode modifiers : Nat) : Bool × List CbEvent :=
  match t.key_event_cb, t.context with
  | some f, some c =>
      (f c engine keyval keycode modifiers,
       [CbEvent.keyEvent c engine keyval keycode modifiers])
  | _, _ => (false, [])

/-- `ibus_dikt_engine_focus_in` (wrapper.c lines 79-83). -/
def ibus_dikt_engine_focus_in (t : CallbackTable) (engine : Nat) :
    List CbEvent :=
  match t.focus_in_cb, t.context with
  | true, some c => [CbEvent.focusIn c engine]
  | _, _ => []

/-- `ibus_dikt_engine_focus_out` (wrapper.c lines 85-89). -/
def ibus_dikt_engine_focus_out (t : CallbackTable) (engine : Nat) :
    List CbEvent :=
  match t.focus_out_cb, t.context with
  | true, some c => [CbEvent.focusOut c engine]
  | _, _ => []

/-- `ibus_dikt_engine_reset` (wrapper.c lines 91-95). -/
def ibus_dikt_engine_reset (t : CallbackTable) (engine : Nat) :
    List CbEvent :=
  match t.reset_cb, t.context with
  | true, some c => [CbEvent.reset c engine]
  | _, _ => []

/-- `ibus_dikt_engine_enable` (wrapper.c lines 97-101). -/
def ibus_dikt_engine_enable (t : CallbackTable) (engine : Nat) :
    List CbEvent :=
  match t.enable_cb, t.context with
  | true, some c => [CbEvent.enable c engine]
  | _, _ => []

/-- `ibus_dikt_engine_disable` (wrapper.c lines 103-107). -/
def ibus_dikt_engine_disable (t : CallbackTable) (engine : Nat) :
    List CbEvent :=
  match t.disable_cb, t.context with
  | true, some c => [CbEvent.disable c engine]
  | _, _ => []

/-- The engine descriptor literal built by `ibus_engine_desc_new` in
wrapper.c lines 183-184. -/
def diktEngineDesc : EngineDesc :=
  { name := "dikt"
    longname := "Dikt"
    description := "Dikt speech-to-text dictation"
    language := "other"
    license := "MIT"
    author := "Dikt Team"
    icon := "dikt"
    layout := "default" }

/-- The component literal built by `ibus_component_new` in wrapper.c
lines 176-184 (with the engine descriptor attached), parameterised by the
build-time `DIKT_VERSION` string, whose default is `"unknown"`
(wrapper.c lines 7-9). -/
def diktComponent (version : String) : Component :=
  { name := "org.freedesktop.IBus.Dikt"
    description := "Dikt Speech-to-Text"
    version := version
    license := "MIT"
    author := "Dikt Team"
    homepage := "https://github.com/rohithmahesh3/Dikt"
    exec := ""
    textdomain := "dikt-ibus"
    engines := [diktEngineDesc] }

/-- Default of the `DIKT_VERSION` build-time macro (wrapper.c lines 7-9). -/
def DIKT_VERSION_default : String := "unknown"

/-- `ibus_dikt_init` (wrapper.c lines 131-191), parameterised by the
framework oracle and the build-time version string. Returns the staged
`int` exit code, the updated globals, and the trace of observable actions,
in the order the C code performs them. -/
def ibus_dikt_init (env : FrameworkEnv) (version : String)
    (s : WrapperState) (ibus_mode : Bool) : Int × WrapperState × List Effect :=
  match env.busNewResult s.busNewCalls with
  | none =>
      (1, { s with busNewCalls := s.busNewCalls + 1 },
       [Effect.ibusInit, Effect.busNew,
        Effect.stderrMsg "Failed to create IBus bus"])
  | some bus =>
      let s1 := { s with busNewCalls := s.busNewCalls + 1 }
      if env.busConnected bus = false then
        (2, s1,
         [Effect.ibusInit, Effect.busNew, Effect.isConnected bus,
          Effect.stderrMsg "IBus daemon not running", Effect.unrefBus bus])
      else
        match env.busGetConnection bus with
        | none =>
            (3, s1,
             [Effect.ibusInit, Effect.busNew, Effect.isConnected bus,
              Effect.stderrMsg "IBus bus has no connection",
              Effect.unrefBus bus])
        | some conn =>
            match env.factoryNewResult conn with
            | none =>
                (4, s1,
                 [Effect.ibusInit, Effect.busNew, Effect.isConnected bus,
                  Effect.stderrMsg "Failed to create IBus factory",
                  Effect.unrefBus bus])
            | some factory =>
                let s2 := { s1 with
                              global_bus := some bus
                              global_factory := some factory }
                let baseEffs :=
                  [Effect.ibusInit, Effect.busNew, Effect.isConnected bus,
                   Effect.signalConnectDisconnected bus,
                   Effect.factoryAddEngine factory "dikt"]
                if ibus_mode then
                  (0, s2,
                   baseEffs ++
                     [Effect.requestName bus "org.freedesktop.IBus.Dikt" 0] ++
                     (if env.requestNameResult ≠ 1 ∧ env.requestNameResult ≠ 2
                      then [Effect.stderrMsg
                              "Warning: Failed to acquire IBus name"]
                      else []))
                else
                  (0, s2,
                   baseEffs ++
                     [Effect.registerComponent bus (diktComponent version),
                      Effect.unrefComponent])

/-- `ibus_dikt_cleanup` (wrapper.c lines 193-202): unref the factory if
present and NULL it, then unref the bus if present and NULL it. -/
def ibus_dikt_cleanup (s : WrapperState) : WrapperState × List Effect :=
  let p1 : WrapperState × List Effect :=
    match s.global_factory with
    | some f => ({ s with global_factory := none }, [Effect.unrefFactory f])
    | none => (s, [])
  let p2 : WrapperState × List Effect :=
    match p1.1.global_bus with
    | some b => ({ p1.1 with global_bus := none }, [Effect.unrefBus b])
    | none => (p1.1, [])
  (p2.1, p1.2 ++ p2.2)

/-- `ibus_dikt_set_global_engine` (wrapper.c lines 204-210). The C guard is
`!global_bus || !engine_name || !ibus_bus_is_connected(global_bus)`,
short-circuiting in that order; note there is no empty-string check here. -/
def ibus_dikt_set_global_engine (env : FrameworkEnv) (s : WrapperState)
    (engine_name : Option String) : Bool × List Effect :=
  match s.global_bus with
  | none => (false, [])
  | some bus =>
      match engine_name with
      | none => (false, [])
      | some n =>
          if env.busConnected bus = false then
            (false, [Effect.isConnected bus])
          else
            (env.setGlobalEngineResult bus n,
             [Effect.isConnected bus, Effect.setGlobalEngineCall bus n])

/-- `ibus_dikt_get_global_engine_name` (wrapper.c lines 212-226). -/
def ibus_dikt_get_global_engine_name (env : FrameworkEnv) (s : WrapperState) :
    Option String × List Effect :=
  match s.global_bus with
  | none => (none, [])
  | some bus =>
      if env.busConnected bus = false then
        (none, [Effect.isConnected bus])
      else
        match env.getGlobalEngineDesc bus with
        | none => (none, [Effect.isConnected bus, Effect.getGlobalEngineCall bus])
        | some descName =>
            (descName,
             [Effect.isConnected bus, Effect.getGlobalEngineCall bus,
              Effect.unrefDesc])

/-- The fresh-bus path of `ibus_dikt_daemon_get_bus` (wrapper.c lines
250-259): `daemon_cached_bus = ibus_bus_new()`; if that is NULL or not
connected, unref any partial handle, NULL the cache and return NULL;
otherwise cache and return the new handle. -/
def daemonBusFresh (env : FrameworkEnv) (s : WrapperState)
    (effs : List Effect) : Option Nat × WrapperState × List Effect :=
  match env.busNewResult s.busNewCalls with
  | none =>
      (none,
       { s with busNewCalls := s.busNewCalls + 1, daemon_cached_bus := none },
       effs ++ [Effect.busNew])
  | some b =>
      if env.busConnected b then
        (some b,
         { s with busNewCalls := s.busNewCalls + 1,
                  daemon_cached_bus := some b },
         effs ++ [Effect.busNew, Effect.isConnected b])
      else
        (none,
         { s with busNewCalls := s.busNewCalls + 1,
                  daemon_cached_bus := none },
         effs ++ [Effect.busNew, Effect.isConnected b, Effect.unrefBus b])

/-- `ibus_dikt_daemon_get_bus` (wrapper.c lines 235-260): one-shot
`ibus_init` latch, then return the cached bus if it exists and is connected;
otherwise release the stale handle and attempt a fresh bus via the path
modelled by `daemonBusFresh`. -/
def ibus_dikt_daemon_get_bus (env : FrameworkEnv) (s : WrapperState) :
    Option Nat × WrapperState × List Effect :=
  let s0 := if s.daemon_ready then s else { s with daemon_ready := true }
  let effs0 : List Effect := if s.daemon_ready then [] else [Effect.ibusInit]
  match s0.daemon_cached_bus with
  | some cached =>
      if env.busConnected cached then
        (some cached, s0, effs0 ++ [Effect.isConnected cached])
      else
        daemonBusFresh env { s0 with daemon_cached_bus := none }
          (effs0 ++ [Effect.isConnected cached, Effect.unrefBus cached])
  | none => daemonBusFresh env s0 effs0

/-- `ibus_dikt_daemon_set_global_engine` (wrapper.c lines 262-273): reject a
NULL or empty name before consulting the daemon bus cache. -/
def ibus_dikt_daemon_set_global_engine (env : FrameworkEnv) (s : WrapperState)
    (engine_name : Option String) : Bool × WrapperState × List Effect :=
  match engine_name with
  | none => (false, s, [])
  | some n =>
      if n = "" then (false, s, [])
      else
        match ibus_dikt_daemon_get_bus env s with
        | (none, s1, effs) => (false, s1, effs)
        | (some bus, s1, effs) =>
            (env.setGlobalEngineResult bus n, s1,
             effs ++ [Effect.setGlobalEngineCall bus n])

/-- `ibus_dikt_daemon_get_global_engine_name` (wrapper.c lines 275-290). -/
def ibus_dikt_daemon_get_global_engine_name (env : FrameworkEnv)
    (s : WrapperState) : Option String × WrapperState × List Effect :=
  match ibus_dikt_daemon_get_bus env s with
  | (none, s1, effs) => (none, s1, effs)
  | (some bus, s1, effs) =>
      match env.getGlobalEngineDesc bus with
      | none => (none, s1, effs ++ [Effect.getGlobalEngineCall bus])
      | some descName =>
          (descName, s1,
           effs ++ [Effect.getGlobalEngineCall bus, Effect.unrefDesc])

/-! Concrete framework oracles and states used to instantiate the theorems. -/

/-- A healthy framework: every `ibus_bus_new` yields handle 7, all buses are
connected, the underlying connection is handle 3, factories succeed with
handle 9, the name request reports primary ownership, engine switching
succeeds, and the global engine is `"xkb:us::eng"`. -/
def envConn : FrameworkEnv :=
  { busNewResult := fun _ => some 7
    busConnected := fun _ => true
    busGetConnection := fun _ => some 3
    factoryNewResult := fun _ => some 9
    requestNameResult := 1
    setGlobalEngineResult := fun _ _ => true
    getGlobalEngineDesc := fun _ => some (some "xkb:us::eng") }

/-- A framework where `ibus_bus_new` always fails. -/
def envNoBus : FrameworkEnv :=
  { envConn with busNewResult := fun _ => none }

/-- A state in which the primary-process bus is published (handle 7) but no
factory is, as `ibus_dikt_set_global_engine` only consults `global_bus`. -/
def sBus : WrapperState := { initialState with global_bus := some 7 }

/-- A daemon-process state: the one-shot latch has fired and bus 7 is
cached. -/
def sDaemon : WrapperState :=
  { initialState with daemon_ready := true, daemon_cached_bus := some 7 }

/-- C1: `ibus_dikt_init` returns 1 if creating the bus fails, 2 if the bus is
not connected, 3 if obtaining the underlying connection from the bus fails,
4 if creating the factory fails, and 0 on success, with the checks performed
in exactly that order (each later check is reached only when all earlier ones
passed). -/
theorem C1_init_staged_exit_codes (env : FrameworkEnv) (version : String)
    (s : WrapperState) (mode : Bool) :
    (env.busNewResult s.busNewCalls = none →
      (ibus_dikt_init env version s mode).1 = 1) ∧
    (∀ bus, env.busNewResult s.busNewCalls = some bus →
      (env.busConnected bus = false →
        (ibus_dikt_init env version s mode).1 = 2) ∧
      (env.busConnected bus = true →
        (env.busGetConnection bus = none →
          (ibus_dikt_init env version s mode).1 = 3) ∧
        (∀ conn, env.busGetConnection bus = some conn →
          (env.factoryNewResult conn = none →
            (ibus_dikt_init env version s mode).1 = 4) ∧
          (∀ factory, env.factoryNewResult conn = some factory →
            (ibus_dikt_init env version s mode).1 = 0)))) := by
  refine ⟨fun h => by simp [ibus_dikt_init, h], fun bus hbus => ⟨?_, ?_⟩⟩
  · intro hc
    simp [ibus_dikt_init, hbus, hc]
  · intro hc
    refine ⟨fun hg => by simp [ibus_dikt_init, hbus, hc, hg],
            fun conn hg => ⟨fun hf => by simp [ibus_dikt_init, hbus, hc, hg, hf],
                            fun factory hf => ?_⟩⟩
    cases mode <;> simp [ibus_dikt_init, hbus, hc, hg, hf]

/-- Witness for C1: in the healthy framework the success branch is reached
and init returns 0. -/
theorem C1_witness :
    (ibus_dikt_init envConn DIKT_VERSION_default initialState true).1 = 0 :=
  ((((C1_init_staged_exit_codes envConn DIKT_VERSION_default initialState
      true).2 7 rfl).2 rfl).2 3 rfl).2 9 rfl

/-- C2: for each of the six engine events, if the callback slot is non-null
and the context is non-null, the slot is invoked with
`(context, engine, event-specific args)` and `process_key_event` returns the
callback's boolean; otherwise the dispatch produces no callback invocation
and `process_key_event` returns false. -/
theorem C2_dispatch_contract (t : CallbackTable)
    (engine keyval keycode modifiers : Nat) :
    (t.context = none ∨ t.key_event_cb = none →
      ibus_dikt_engine_process_key_event t engine keyval keycode modifiers =
        (false, [])) ∧
    (∀ f c, t.key_event_cb = some f → t.context = some c →
      ibus_dikt_engine_process_key_event t engine keyval keycode modifiers =
        (f c engine keyval keycode modifiers,
         [CbEvent.keyEvent c engine keyval keycode modifiers])) ∧
    (t.context = none ∨ t.focus_in_cb = false →
      ibus_dikt_engine_focus_in t engine = []) ∧
    (∀ c, t.focus_in_cb = true → t.context = some c →
      ibus_dikt_engine_focus_in t engine = [CbEvent.focusIn c engine]) ∧
    (t.context = none ∨ t.focus_out_cb = false →
      ibus_dikt_engine_focus_out t engine = []) ∧
    (∀ c, t.focus_out_cb = true → t.context = some c →
      ibus_dikt_engine_focus_out t engine = [CbEvent.focusOut c engine]) ∧
    (t.context = none ∨ t.reset_cb = false →
      ibus_dikt_engine_reset t engine = []) ∧
    (∀ c, t.reset_cb = true → t.context = some c →
      ibus_dikt_engine_reset t engine = [CbEvent.reset c engine]) ∧
    (t.context = none ∨ t.enable_cb = false →
      ibus_dikt_engine_enable t engine = []) ∧
    (∀ c, t.enable_cb = true → t.context = some c →
      ibus_dikt_engine_enable t engine = [CbEvent.enable c engine]) ∧
    (t.context = none ∨ t.disable_cb = false →
      ibus_dikt_engine_disable t engine = []) ∧
    (∀ c, t.disable_cb = true → t.context = some c →
      ibus_dikt_engine_disable t engine = [CbEvent.disable c engine]) := by
  refine ⟨?_, ?_, ?_, ?_, ?_, ?_, ?_, ?_, ?_, ?_, ?_, ?_⟩
  · rintro (h | h) <;>
      simp [ibus_dikt_engine_process_key_event, h]
  · intro f c hf hc
    simp [ibus_dikt_engine_process_key_event, hf, hc]
  · rintro (h | h) <;>
      simp [ibus_dikt_engine_focus_in, h]
  · intro c hf hc
    simp [ibus_dikt_engine_focus_in, hf, hc]
  · rintro (h | h) <;>
      simp [ibus_dikt_engine_focus_out, h]
  · intro c hf hc
    simp [ibus_dikt_engine_focus_out, hf, hc]
  · rintro (h | h) <;>
      simp [ibus_dikt_engine_reset, h]
  · intro c hf hc
    simp [ibus_dikt_engine_reset, hf, hc]
  · rintro (h | h) <;>
      simp [ibus_dikt_engine_enable, h]
  · intro c hf hc
    simp [ibus_dikt_engine_enable, hf, hc]
  · rintro (h | h) <;>
      simp [ibus_dikt_engine_disable, h]
  · intro c hf hc
    simp [ibus_dikt_engine_disable, hf, hc]

/-- A callback table whose key_event callback consumes exactly
keyval 0x20, with context handle 1 and all void slots populated. -/
def tSpace : CallbackTable :=
  ibus_dikt_set_callback (some 1)
    (some (fun _ _ keyval _ _ => keyval == 0x20)) true true true true true

/-- Witness for C2: with `tSpace` installed, `process_key_event(0x20, 57, 0)`
on engine 5 invokes the callback and returns true, and `focus_in` invokes its
slot with (context, engine). -/
theorem C2_witness :
    ibus_dikt_engine_process_key_event tSpace 5 0x20 57 0 =
      (true, [CbEvent.keyEvent 1 5 0x20 57 0]) ∧
    ibus_dikt_engine_focus_in tSpace 5 = [CbEvent.focusIn 1 5] :=
  ⟨(C2_dispatch_contract tSpace 5 0x20 57 0).2.1 _ 1 rfl rfl,
   (C2_dispatch_contract tSpace 5 0x20 57 0).2.2.2.1 1 rfl rfl⟩

/-- C3 counterexample: the guard of `ibus_dikt_set_global_engine` is
`!global_bus || !engine_name || !ibus_bus_is_connected(global_bus)` — it
never tests for the empty string. With the bus present (handle 7) and
connected, `set_global_engine("")` performs the connectivity check, delegates
`""` to the bus-level set-global-engine call, and returns that call's boolean
(true under `envConn`) — so the claim that it returns false without invoking
any bus operation is false. -/
theorem C3_empty_name_counterexample :
    (ibus_dikt_set_global_engine envConn sBus (some "")).1 ≠ false ∧
    Effect.setGlobalEngineCall 7 "" ∈
      (ibus_dikt_set_global_engine envConn sBus (some "")).2 := by
  constructor
  · decide
  · decide

/-- C3 amended: `ibus_dikt_set_global_engine` returns false without invoking
any bus operation whenever the name argument is null (and likewise when no
bus is published); the empty string is NOT special-cased — when the bus is
present and connected, the empty name is forwarded to the bus-level
set-global-engine call and its boolean is returned. -/
theorem C3_set_global_engine_null_guard (env : FrameworkEnv)
    (s : WrapperState) :
    ibus_dikt_set_global_engine env s none = (false, []) ∧
    (s.global_bus = none →
      ∀ name, ibus_dikt_set_global_engine env s name = (false, [])) ∧
    (∀ bus, s.global_bus = some bus → env.busConnected bus = true →
      ibus_dikt_set_global_engine env s (some "") =
        (env.setGlobalEngineResult bus "",
         [Effect.isConnected bus, Effect.setGlobalEngineCall bus ""])) := by
  refine ⟨?_, ?_, ?_⟩
  · rcases hb : s.global_bus with _ | bus <;>
      simp [ibus_dikt_set_global_engine, hb]
  · intro hb name
    simp [ibus_dikt_set_global_engine, hb]
  · intro bus hb hc
    simp [ibus_dikt_set_global_engine, hb, hc]

/-- Witness for C3's amended theorem: with bus 7 published and connected in
`envConn`, the null name is rejected with no effects, and the empty name is
forwarded to the bus. -/
theorem C3_witness :
    ibus_dikt_set_global_engine envConn sBus none = (false, []) ∧
    ibus_dikt_set_global_engine envConn sBus (some "") =
      (true, [Effect.isConnected 7, Effect.setGlobalEngineCall 7 ""]) :=
  ⟨(C3_set_global_engine_null_guard envConn sBus).1,
   (C3_set_global_engine_null_guard envConn sBus).2.2 7 rfl rfl⟩

/-- C5: every successful `init(SelfRegistered)` (mode = false) registers with
the bus a component whose eight fields and single engine descriptor are
exactly the literals of wrapper.c lines 176-184 (version is the build-time
version string), and the caller-side reference to the component is dropped
(unref) immediately after registration, before init returns. -/
theorem C5_self_registered_component (env : FrameworkEnv) (version : String)
    (s : WrapperState) (bus conn factory : Nat)
    (hb : env.busNewResult s.busNewCalls = some bus)
    (hc : env.busConnected bus = true)
    (hg : env.busGetConnection bus = some conn)
    (hf : env.factoryNewResult conn = some factory) :
    (ibus_dikt_init env version s false).1 = 0 ∧
    (ibus_dikt_init env version s false).2.2 =
      [Effect.ibusInit, Effect.busNew, Effect.isConnected bus,
       Effect.signalConnectDisconnected bus,
       Effect.factoryAddEngine factory "dikt",
       Effect.registerComponent bus
         { name := "org.freedesktop.IBus.Dikt"
           description := "Dikt Speech-to-Text"
           version := version
           license := "MIT"
           author := "Dikt Team"
           homepage := "https://github.com/rohithmahesh3/Dikt"
           exec := ""
           textdomain := "dikt-ibus"
           engines := [{ name := "dikt"
                         longname := "Dikt"
                         description := "Dikt speech-to-text dictation"
                         language := "other"
                         license := "MIT"
                         author := "Dikt Team"
                         icon := "dikt"
                         layout := "default" }] },
       Effect.unrefComponent] := by
  constructor <;> simp [ibus_dikt_init, hb, hc, hg, hf, diktComponent,
    diktEngineDesc]

/-- Witness for C5: the healthy framework at process start, with the default
build-time version. -/
theorem C5_witness :
    (ibus_dikt_init envConn DIKT_VERSION_default initialState false).1 = 0 ∧
    (ibus_dikt_init envConn DIKT_VERSION_default initialState false).2.2 =
      [Effect.ibusInit, Effect.busNew, Effect.isConnected 7,
       Effect.signalConnectDisconnected 7,
       Effect.factoryAddEngine 9 "dikt",
       Effect.registerComponent 7 (diktComponent "unknown"),
       Effect.unrefComponent] := by
  have h := C5_self_registered_component envConn DIKT_VERSION_default
    initialState 7 3 9 rfl rfl rfl rfl
  exact ⟨h.1, by rw [h.2]; rfl⟩

/-- C6: in ManagedByIBus mode (mode = true), after the factory is set up,
init requests the well-known name "org.freedesktop.IBus.Dikt" with flags 0;
init returns 0 regardless of the request's result; and the warning
diagnostic appears on the trace exactly when the result is neither
"primary owner acquired" (1) nor "previous owner replaced" (2). -/
theorem C6_managed_mode_name_request (env : FrameworkEnv) (version : String)
    (s : WrapperState) (bus conn factory : Nat)
    (hb : env.busNewResult s.busNewCalls = some bus)
    (hc : env.busConnected bus = true)
    (hg : env.busGetConnection bus = some conn)
    (hf : env.factoryNewResult conn = some factory) :
    (ibus_dikt_init env version s true).1 = 0 ∧
    Effect.requestName bus "org.freedesktop.IBus.Dikt" 0 ∈
      (ibus_dikt_init env version s true).2.2 ∧
    (¬(env.requestNameResult = 1 ∨ env.requestNameResult = 2) →
      Effect.stderrMsg "Warning: Failed to acquire IBus name" ∈
        (ibus_dikt_init env version s true).2.2) ∧
    (env.requestNameResult = 1 ∨ env.requestNameResult = 2 →
      Effect.stderrMsg "Warning: Failed to acquire IBus name" ∉
        (ibus_dikt_init env version s true).2.2) := by
  refine ⟨by simp [ibus_dikt_init, hb, hc, hg, hf], ?_, ?_, ?_⟩
  · by_cases hr : env.requestNameResult ≠ 1 ∧ env.requestNameResult ≠ 2 <;>
      simp [ibus_dikt_init, hb, hc, hg, hf, hr]
  · intro hr
    push_neg at hr
    simp [ibus_dikt_init, hb, hc, hg, hf, hr]
  · rintro (hr | hr) <;> simp [ibus_dikt_init, hb, hc, hg, hf, hr]

/-- A healthy framework whose name request returns an unexpected code (5). -/
def envBadName : FrameworkEnv := { envConn with requestNameResult := 5 }

/-- Witness for C6: with an unexpected name-request result (5), init still
returns 0 and the warning is on the trace; with result 1 (primary owner) the
warning is absent. -/
theorem C6_witness :
    (ibus_dikt_init envBadName DIKT_VERSION_default initialState true).1 = 0 ∧
    Effect.stderrMsg "Warning: Failed to acquire IBus name" ∈
      (ibus_dikt_init envBadName DIKT_VERSION_default initialState true).2.2 ∧
    Effect.stderrMsg "Warning: Failed to acquire IBus name" ∉
      (ibus_dikt_init envConn DIKT_VERSION_default initialState true).2.2 :=
  ⟨(C6_managed_mode_name_request envBadName DIKT_VERSION_default initialState
      7 3 9 rfl rfl rfl rfl).1,
   (C6_managed_mode_name_request envBadName DIKT_VERSION_default initialState
      7 3 9 rfl rfl rfl rfl).2.2.1 (by decide),
   (C6_managed_mode_name_request envConn DIKT_VERSION_default initialState
      7 3 9 rfl rfl rfl rfl).2.2.2 (Or.inl rfl)⟩

/-- C7: `ibus_dikt_cleanup` nulls both references; when both handles are
present (as after a successful init) it unrefs the factory first and then
the bus, each exactly once; a second consecutive call is a no-op (same
state, no effects); and on a state holding only one or neither handle (as
after a failed init) only the still-held resources are freed. -/
theorem C7_cleanup_idempotent (s : WrapperState) :
    ((ibus_dikt_cleanup s).1.global_bus = none ∧
     (ibus_dikt_cleanup s).1.global_factory = none) ∧
    (∀ f b, s.global_factory = some f → s.global_bus = some b →
      (ibus_dikt_cleanup s).2 = [Effect.unrefFactory f, Effect.unrefBus b]) ∧
    ibus_dikt_cleanup (ibus_dikt_cleanup s).1 = ((ibus_dikt_cleanup s).1, []) ∧
    (∀ f, s.global_factory = some f → s.global_bus = none →
      (ibus_dikt_cleanup s).2 = [Effect.unrefFactory f]) ∧
    (∀ b, s.global_factory = none → s.global_bus = some b →
      (ibus_dikt_cleanup s).2 = [Effect.unrefBus b]) ∧
    (s.global_factory = none → s.global_bus = none →
      ibus_dikt_cleanup s = (s, [])) := by
  refine ⟨?_, ?_, ?_, ?_, ?_, ?_⟩
  · rcases hf : s.global_factory with _ | f <;>
      rcases hb : s.global_bus with _ | b <;>
      simp [ibus_dikt_cleanup, hf, hb]
  · intro f b hf hb
    simp [ibus_dikt_cleanup, hf, hb]
  · rcases hf : s.global_factory with _ | f <;>
      rcases hb : s.global_bus with _ | b <;>
      simp [ibus_dikt_cleanup, hf, hb]
  · intro f hf hb
    simp [ibus_dikt_cleanup, hf, hb]
  · intro b hf hb
    simp [ibus_dikt_cleanup, hf, hb]
  · intro hf hb
    simp [ibus_dikt_cleanup, hf, hb]

/-- A state holding both lifecycle handles, as published by a successful
init (bus 7, factory 9). -/
def sInitDone : WrapperState :=
  { initialState with global_bus := some 7, global_factory := some 9,
                      busNewCalls := 1 }

/-- Witness for C7: on the post-init state, the first cleanup frees factory 9
then bus 7 exactly once, and the second cleanup is a no-op. -/
theorem C7_witness :
    (ibus_dikt_cleanup sInitDone).2 =
      [Effect.unrefFactory 9, Effect.unrefBus 7] ∧
    ibus_dikt_cleanup (ibus_dikt_cleanup sInitDone).1 =
      ((ibus_dikt_cleanup sInitDone).1, []) :=
  ⟨(C7_cleanup_idempotent sInitDone).2.1 9 7 rfl rfl,
   (C7_cleanup_idempotent sInitDone).2.2.1⟩

/-- C8: after any successful init (either mode) followed by cleanup, both the
factory and the bus are released (in that order), and on the resulting state
every `set_global_engine` call returns false and `get_global_engine_name`
returns none, each without touching the bus. -/
theorem C8_cleanup_disables_control_surface (env : FrameworkEnv)
    (version : String) (s : WrapperState) (mode : Bool) (bus conn factory : Nat)
    (hb : env.busNewResult s.busNewCalls = some bus)
    (hc : env.busConnected bus = true)
    (hg : env.busGetConnection bus = some conn)
    (hf : env.factoryNewResult conn = some factory) :
    (ibus_dikt_init env version s mode).1 = 0 ∧
    (ibus_dikt_cleanup (ibus_dikt_init env version s mode).2.1).2 =
      [Effect.unrefFactory factory, Effect.unrefBus bus] ∧
    (∀ name,
      ibus_dikt_set_global_engine env
        (ibus_dikt_cleanup (ibus_dikt_init env version s mode).2.1).1 name =
        (false, [])) ∧
    ibus_dikt_get_global_engine_name env
      (ibus_dikt_cleanup (ibus_dikt_init env version s mode).2.1).1 =
      (none, []) := by
  have hstate : (ibus_dikt_init env version s mode).2.1 =
      { s with global_bus := some bus, global_factory := some factory,
               busNewCalls := s.busNewCalls + 1 } := by
    cases mode <;> simp [ibus_dikt_init, hb, hc, hg, hf]
  refine ⟨by cases mode <;> simp [ibus_dikt_init, hb, hc, hg, hf], ?_, ?_, ?_⟩
  · rw [hstate]
    simp [ibus_dikt_cleanup]
  · intro name
    rw [hstate]
    simp [ibus_dikt_cleanup, ibus_dikt_set_global_engine]
  · rw [hstate]
    simp [ibus_dikt_cleanup, ibus_dikt_get_global_engine_name]

/-- Witness for C8: healthy framework, ManagedByIBus init, then cleanup; the
control surface goes dead. -/
theorem C8_witness :
    (ibus_dikt_cleanup
        (ibus_dikt_init envConn DIKT_VERSION_default initialState true).2.1).2 =
      [Effect.unrefFactory 9, Effect.unrefBus 7] ∧
    ibus_dikt_set_global_engine envConn
      (ibus_dikt_cleanup
        (ibus_dikt_init envConn DIKT_VERSION_default initialState true).2.1).1
      (some "dikt") = (false, []) :=
  ⟨(C8_cleanup_disables_control_surface envConn DIKT_VERSION_default
      initialState true 7 3 9 rfl rfl rfl rfl).2.1,
   (C8_cleanup_disables_control_surface envConn DIKT_VERSION_default
      initialState true 7 3 9 rfl rfl rfl rfl).2.2.1 (some "dikt")⟩

/-- C9: `ibus_dikt_daemon_set_global_engine` returns false on a null or empty
name before consulting the daemon bus cache: the state (including the cache
and the bus-new counter) is unchanged and no effect is produced. -/
theorem C9_daemon_set_rejects_null_and_empty (env : FrameworkEnv)
    (s : WrapperState) :
    ibus_dikt_daemon_set_global_engine env s none = (false, s, []) ∧
    ibus_dikt_daemon_set_global_engine env s (some "") = (false, s, []) := by
  constructor <;> simp [ibus_dikt_daemon_set_global_engine]

/-- C10: whenever init fails (nonzero code) starting from a state with no
published handles, the bus and factory globals are still unpublished
afterwards, any partially created bus was unrefed before returning (codes
2-4), and the control surface stays dead: `set_global_engine` returns false
and `get_global_engine_name` returns none, without touching the bus. -/
theorem C10_failed_init_publishes_nothing (env : FrameworkEnv)
    (version : String) (s : WrapperState) (mode : Bool)
    (hbus0 : s.global_bus = none) (hfac0 : s.global_factory = none)
    (hfail : (ibus_dikt_init env version s mode).1 ≠ 0) :
    (ibus_dikt_init env version s mode).2.1.global_bus = none ∧
    (ibus_dikt_init env version s mode).2.1.global_factory = none ∧
    (∀ bus, env.busNewResult s.busNewCalls = some bus →
      Effect.unrefBus bus ∈ (ibus_dikt_init env version s mode).2.2) ∧
    (∀ name,
      ibus_dikt_set_global_engine env (ibus_dikt_init env version s mode).2.1
        name = (false, [])) ∧
    ibus_dikt_get_global_engine_name env
      (ibus_dikt_init env version s mode).2.1 = (none, []) := by
  rcases hb : env.busNewResult s.busNewCalls with _ | bus
  · simp [ibus_dikt_init, hb, hbus0, hfac0, ibus_dikt_set_global_engine,
      ibus_dikt_get_global_engine_name]
  · rcases hc : env.busConnected bus with _ | _
    · simp [ibus_dikt_init, hb, hc, hbus0, hfac0, ibus_dikt_set_global_engine,
        ibus_dikt_get_global_engine_name]
    · rcases hg : env.busGetConnection bus with _ | conn
      · simp [ibus_dikt_init, hb, hc, hg, hbus0, hfac0,
          ibus_dikt_set_global_engine, ibus_dikt_get_global_engine_name]
      · rcases hf : env.factoryNewResult conn with _ | factory
        · simp [ibus_dikt_init, hb, hc, hg, hf, hbus0, hfac0,
            ibus_dikt_set_global_engine, ibus_dikt_get_global_engine_name]
        · exfalso
          apply hfail
          cases mode <;> simp [ibus_dikt_init, hb, hc, hg, hf]

/-- A framework whose buses are created but never connected (init fails with
code 2). -/
def envDisconnected : FrameworkEnv :=
  { envConn with busConnected := fun _ => false }

/-- Witness for C10: with a disconnected framework, init fails, the partial
bus 7 is released, and the control surface stays dead. -/
theorem C10_witness :
    Effect.unrefBus 7 ∈
      (ibus_dikt_init envDisconnected DIKT_VERSION_default initialState
        true).2.2 ∧
    ibus_dikt_set_global_engine envDisconnected
      (ibus_dikt_init envDisconnected DIKT_VERSION_default initialState
        true).2.1 (some "dikt") = (false, []) :=
  ⟨(C10_failed_init_publishes_nothing envDisconnected DIKT_VERSION_default
      initialState true rfl rfl (by decide)).2.2.1 7 rfl,
   (C10_failed_init_publishes_nothing envDisconnected DIKT_VERSION_default
      initialState true rfl rfl (by decide)).2.2.2.1 (some "dikt")⟩

/-- C4: the daemon bus cache holds at most one bus handle (it is a single
`Option` cell). While the cached bus reports connected, consecutive daemon
operations reuse the same handle with no new `ibus_bus_new` call and leave
the state untouched; a cached handle observed disconnected is released and a
fresh bus is attempted; if the fresh bus cannot be created or is not
connected the cache is nulled and the operation yields none/false; and a
call starting with an empty cache always retries `ibus_bus_new`. -/
theorem C4_daemon_bus_cache (env : FrameworkEnv) (s : WrapperState)
    (hready : s.daemon_ready = true) :
    (∀ b, s.daemon_cached_bus = some b → env.busConnected b = true →
      ibus_dikt_daemon_get_bus env s = (some b, s, [Effect.isConnected b])) ∧
    (∀ b, s.daemon_cached_bus = some b → env.busConnected b = true →
      (ibus_dikt_daemon_get_global_engine_name env s).2.1 = s ∧
      Effect.busNew ∉ (ibus_dikt_daemon_get_global_engine_name env s).2.2 ∧
      Effect.busNew ∉ (ibus_dikt_daemon_get_global_engine_name env
        (ibus_dikt_daemon_get_global_engine_name env s).2.1).2.2) ∧
    (∀ b, s.daemon_cached_bus = some b → env.busConnected b = false →
      Effect.unrefBus b ∈ (ibus_dikt_daemon_get_bus env s).2.2 ∧
      Effect.busNew ∈ (ibus_dikt_daemon_get_bus env s).2.2) ∧
    (∀ b b2, s.daemon_cached_bus = some b → env.busConnected b = false →
      env.busNewResult s.busNewCalls = some b2 → env.busConnected b2 = true →
      (ibus_dikt_daemon_get_bus env s).1 = some b2 ∧
      (ibus_dikt_daemon_get_bus env s).2.1.daemon_cached_bus = some b2) ∧
    (s.daemon_cached_bus = none → env.busNewResult s.busNewCalls = none →
      ibus_dikt_daemon_get_bus env s =
        (none, { s with busNewCalls := s.busNewCalls + 1,
                        daemon_cached_bus := none }, [Effect.busNew]) ∧
      (ibus_dikt_daemon_set_global_engine env s (some "dikt")).1 = false ∧
      (ibus_dikt_daemon_get_global_engine_name env s).1 = none) ∧
    (∀ b2, s.daemon_cached_bus = none →
      env.busNewResult s.busNewCalls = some b2 → env.busConnected b2 = false →
      (ibus_dikt_daemon_get_bus env s).1 = none ∧
      (ibus_dikt_daemon_get_bus env s).2.1.daemon_cached_bus = none ∧
      Effect.unrefBus b2 ∈ (ibus_dikt_daemon_get_bus env s).2.2) ∧
    (s.daemon_cached_bus = none →
      Effect.busNew ∈ (ibus_dikt_daemon_get_bus env s).2.2) ∧
    (∀ b2, s.daemon_cached_bus = none →
      env.busNewResult s.busNewCalls = some b2 → env.busConnected b2 = true →
      ibus_dikt_daemon_get_bus env s =
        (some b2, { s with busNewCalls := s.busNewCalls + 1,
                           daemon_cached_bus := some b2 },
         [Effect.busNew, Effect.isConnected b2])) := by
  refine ⟨?_, ?_, ?_, ?_, ?_, ?_, ?_, ?_⟩
  · intro b hb hc
    simp [ibus_dikt_daemon_get_bus, hready, hb, hc]
  · intro b hb hc
    have hget : ibus_dikt_daemon_get_bus env s =
        (some b, s, [Effect.isConnected b]) := by
      simp [ibus_dikt_daemon_get_bus, hready, hb, hc]
    rcases hd : env.getGlobalEngineDesc b with _ | dn <;>
      simp [ibus_dikt_daemon_get_global_engine_name, hget, hd]
  · intro b hb hc
    rcases hn : env.busNewResult s.busNewCalls with _ | b2
    · simp [ibus_dikt_daemon_get_bus, daemonBusFresh, hready, hb, hc, hn]
    · rcases hc2 : env.busConnected b2 with _ | _ <;>
        simp [ibus_dikt_daemon_get_bus, daemonBusFresh, hready, hb, hc, hn,
          hc2]
  · intro b b2 hb hc hn hc2
    simp [ibus_dikt_daemon_get_bus, daemonBusFresh, hready, hb, hc, hn, hc2]
  · intro hb hn
    have hget : ibus_dikt_daemon_get_bus env s =
        (none, { s with busNewCalls := s.busNewCalls + 1,
                        daemon_cached_bus := none }, [Effect.busNew]) := by
      simp [ibus_dikt_daemon_get_bus, daemonBusFresh, hready, hb, hn]
    refine ⟨hget, ?_, ?_⟩
    · simp [ibus_dikt_daemon_set_global_engine, hget]
    · simp [ibus_dikt_daemon_get_global_engine_name, hget]
  · intro b2 hb hn hc2
    simp [ibus_dikt_daemon_get_bus, daemonBusFresh, hready, hb, hn, hc2]
  · intro hb
    rcases hn : env.busNewResult s.busNewCalls with _ | b2
    · simp [ibus_dikt_daemon_get_bus, daemonBusFresh, hready, hb, hn]
    · rcases hc2 : env.busConnected b2 with _ | _ <;>
        simp [ibus_dikt_daemon_get_bus, daemonBusFresh, hready, hb, hn, hc2]
  · intro b2 hb hn hc2
    simp [ibus_dikt_daemon_get_bus, daemonBusFresh, hready, hb, hn, hc2]

/-- Witness for C4: with bus 7 cached and connected, the daemon accessor
returns the cached handle unchanged, and two consecutive
`daemon_get_global_engine_name` calls create no new bus. -/
theorem C4_witness :
    ibus_dikt_daemon_get_bus envConn sDaemon =
      (some 7, sDaemon, [Effect.isConnected 7]) ∧
    Effect.busNew ∉
      (ibus_dikt_daemon_get_global_engine_name envConn sDaemon).2.2 ∧
    Effect.busNew ∉
      (ibus_dikt_daemon_get_global_engine_name envConn
        (ibus_dikt_daemon_get_global_engine_name envConn sDaemon).2.1).2.2 :=
  ⟨(C4_daemon_bus_cache envConn sDaemon rfl).1 7 rfl rfl,
   ((C4_daemon_bus_cache envConn sDaemon rfl).2.1 7 rfl rfl).2.1,
   ((C4_daemon_bus_cache envConn sDaemon rfl).2.1 7 rfl rfl).2.2⟩

end Dikt
